import Mathlib

/-!
Verification of the coordinate codec and protocol orchestration of the
scipion-em-gautomatch plugin, a shallow embedding of `gautomatch/convert.py`
and `gautomatch/protocols/protocol_gautomatch.py`.

Machine floating-point values are modelled as exact rationals (ℚ); the only
rounding any of the verified properties depends on is the six-decimal text
formatting performed by `CoordStarWriter.writeRow` (`%0.6f`), modelled by
`fmt6` below. Python `int()` truncation toward zero is modelled by `pyInt`.
Filesystem contents are modelled as a lookup function from path to optional
parsed file content.
-/

namespace Gautomatch

/-- A micrograph as seen by the codec: object id, name and file name
(pwem `Micrograph`, read-only to this plugin). -/
structure Micrograph where
  objId : ℤ
  micName : String
  fileName : String
deriving Repr, DecidableEq

/-- One data row of a coordinate star file, with the optional labels the
codec reads: `_rlnCoordinateX`, `_rlnCoordinateY`, `_rlnAnglePsi`,
`_rlnClassNumber`, `_rlnAutopickFigureOfMerit`, `_rlnImageEnabled`,
`_rlnMicrographId`, `_rlnMicrographName` (convert.py COOR_DICT and
COOR_EXTRA_LABELS). A label absent from the file is `none`. -/
structure CoordRow where
  xLabel : Option ℚ := none
  yLabel : Option ℚ := none
  psiLabel : Option ℚ := none
  clsLabel : Option ℤ := none
  fomLabel : Option ℚ := none
  enabledLabel : Option ℤ := none
  micIdLabel : Option ℤ := none
  micNameLabel : Option String := none
deriving Repr, DecidableEq

/-- The micrograph-name attribute of a coordinate may hold either the
integer micrograph id (used as a name when `_rlnMicrographName` is absent,
convert.py:93-97) or an actual name string. -/
abbrev MicNameVal := ℤ ⊕ String

/-- A pwem `Coordinate` object as populated by `rowToCoordinate` /
`rowToObject` (convert.py:53-107): mandatory x/y, and the extra star labels
kept as optional attributes exactly when they were present in the row. -/
structure EmCoordinate where
  enabled : Bool
  x : ℚ
  y : ℚ
  psiAttr : Option ℚ
  clsAttr : Option ℤ
  fomAttr : Option ℚ
  micId : Option ℤ
  micNameAttr : Option MicNameVal
deriving Repr, DecidableEq

/-- The failure raised while parsing a present but malformed coordinate
file: when a row lacks the required x/y columns, `rowToCoordinate`
(convert.py:80-107) returns `None` and `readCoordinates` (convert.py:133)
then raises on `None.setX`. This type names that parse failure. -/
inductive FormatError where
  | missingCoordinateColumns
deriving Repr, DecidableEq

/-- `rowToCoordinate` (convert.py:80-107): requires the x and y labels
(COOR_DICT); copies the extra labels that are present; increments
`_rlnClassNumber` (Gautomatch counts classes from 0, relion from 1,
convert.py:86-89); derives the micrograph name from the id when only the id
label is present. Returns `none` when x or y is missing. -/
def rowToCoordinate (coordRow : CoordRow) : Option EmCoordinate :=
  if coordRow.xLabel.isSome && coordRow.yLabel.isSome then
    some { enabled := 0 < coordRow.enabledLabel.getD 1
           x := coordRow.xLabel.getD 0
           y := coordRow.yLabel.getD 0
           psiAttr := coordRow.psiLabel
           clsAttr := coordRow.clsLabel.map (· + 1)
           fomAttr := coordRow.fomLabel
           micId := coordRow.micIdLabel
           micNameAttr :=
             match coordRow.micNameLabel with
             | some n => some (Sum.inr n)
             | none => coordRow.micIdLabel.map Sum.inl }
  else
    none

/-- Models pwem `Coordinate.setMicrograph`, called at convert.py:135:
records the micrograph id and name on the coordinate. -/
def setMicrograph (mic : Micrograph) (c : EmCoordinate) : EmCoordinate :=
  { c with micId := some mic.objId, micNameAttr := some (Sum.inr mic.micName) }

/-- Row loop of `readCoordinates` (convert.py:131-136): each row is turned
into a coordinate and appended to the set; a row on which `rowToCoordinate`
returns `None` aborts the loop with the parse failure (the `None.setX`
crash), keeping the coordinates already appended (the Python set is mutated
in place). -/
def readCoordinatesRows (mic : Micrograph) (rows : List CoordRow)
    (coordsSet : List EmCoordinate) : List EmCoordinate × Option FormatError :=
  match rows with
  | [] => (coordsSet, none)
  | row :: rest =>
    match rowToCoordinate row with
    | some coord => readCoordinatesRows mic rest (coordsSet ++ [setMicrograph mic coord])
    | none => (coordsSet, some FormatError.missingCoordinateColumns)

/-- `readCoordinates` (convert.py:129-136). `fileRows = none` models a path
that does not exist (`os.path.exists` false): nothing is appended and no
error is raised. `coord.setX(coord.getX())` / `setY(getY())` are identity
operations and are not modelled separately. -/
def readCoordinates (mic : Micrograph) (fileRows : Option (List CoordRow))
    (coordsSet : List EmCoordinate) : List EmCoordinate × Option FormatError :=
  match fileRows with
  | none => (coordsSet, none)
  | some rows => readCoordinatesRows mic rows coordsSet

/-- Six-decimal fixed-point text formatting, the `%0.6f` conversion used by
`CoordStarWriter.writeRow` (convert.py:160): the written value is the
nearest multiple of 10⁻⁶ of the original. -/
def fmt6 (q : ℚ) : ℚ := round (q * 1000000) / 1000000

/-- An in-memory coordinate record as handed to the writer: x, y, psi and
figure of merit are floats, the class number an integer. -/
structure CoordRecord where
  x : ℚ
  y : ℚ
  psi : ℚ
  classNumber : ℤ
  figureOfMerit : ℚ
deriving Repr, DecidableEq

/-- `CoordStarWriter.writeRow` (convert.py:159-161): writes one line
`"%0.6f %0.6f %0.6f %d %0.6f"` under the fixed five-column header, i.e. a
row carrying exactly the five declared labels, floats formatted to six
decimals and the class number written exactly. -/
def writeRow (x y : ℚ) (psi : ℚ := 0) (classNumber : ℤ := 0)
    (autopickFom : ℚ := 0) : CoordRow :=
  { xLabel := some (fmt6 x)
    yLabel := some (fmt6 y)
    psiLabel := some (fmt6 psi)
    clsLabel := some classNumber
    fomLabel := some (fmt6 autopickFom) }

/-- Writing a record sequence with one `CoordStarWriter.writeRow` call per
record, as `writeMicCoords` (convert.py:176-185) does. -/
def writeCoordStar (records : List CoordRecord) : List CoordRow :=
  records.map fun r => writeRow r.x r.y r.psi r.classNumber r.figureOfMerit

/-- Split a character list at every occurrence of a separator. -/
def splitCharList (sep : Char) : List Char → List (List Char)
  | [] => [[]]
  | c :: rest =>
    let r := splitCharList sep rest
    if c = sep then [] :: r
    else
      match r with
      | [] => [[c]]
      | h :: t => (c :: h) :: t

/-- Join character lists with a separator, inverse of `splitCharList`. -/
def joinCharList (sep : Char) : List (List Char) → List Char
  | [] => []
  | [l] => l
  | l :: ls => l ++ sep :: joinCharList sep ls

/-- `pwutils.removeBaseExt`: strip the directory part and the last
extension of a file name. -/
def removeBaseExt (fn : String) : String :=
  let base := (splitCharList '/' fn.data).getLastD fn.data
  let parts := splitCharList '.' base
  String.mk (if parts.length ≤ 1 then base else joinCharList '.' parts.dropLast)

/-- Suffix test on file names, the predicate realised by the glob patterns
`*.star`, `*_ccmax.mrc`, ... of the harvest step. -/
def strEndsWith (s p : String) : Bool := p.data.isSuffixOf s.data

/-- `readSetOfCoordinates` (convert.py:110-126): for each micrograph of the
set, look for `<micrograph-base><suffix>` under `workDir` and decode it via
`readCoordinates`; a parse failure propagates out of the loop (exception),
keeping coordinates appended so far. `fs` models the filesystem. -/
def readSetOfCoordinates (fs : String → Option (List CoordRow))
    (workDir : String) (micSet : List Micrograph)
    (coordSet : List EmCoordinate) (suffix : String := "_automatch.star") :
    List EmCoordinate × Option FormatError :=
  match micSet with
  | [] => (coordSet, none)
  | mic :: rest =>
    let fnCoords := workDir ++ "/" ++ removeBaseExt mic.fileName ++ suffix
    match readCoordinates mic (fs fnCoords) coordSet with
    | (cs, none) => readSetOfCoordinates fs workDir rest cs suffix
    | (cs, some e) => (cs, some e)

/-- The reference-template set (pwem `SetOfAverages`): sampling rate in
A/pixel and X dimension in pixels. -/
structure RefSet where
  samplingRate : ℚ
  xDim : ℕ
deriving Repr, DecidableEq

/-- The protocol parameter set of `ProtGautomatch` (`_defineParams`,
protocol_gautomatch.py:58-308), with the fields the verified behaviour
reads. Pointer parameters are modelled by their resolved value: `Option`
for the references, `Bool` presence flags for the two coordinate-set
pointers of exclusive picking. `version053` is true when
`Plugin.getActiveVersion() == "0.53"` (the installed version is 0.56, so it
is false in practice). -/
structure GautoConfig where
  micSamplingRate : ℚ
  angStep : ℤ := 5
  threshold : ℚ := 1/10
  particleSize : ℤ := -1
  inputReferences : Option RefSet := none
  invertTemplatesContrast : Bool := true
  advanced : Bool := true
  boxSize : ℤ := -1
  minDist : ℤ := 300
  speed : ℤ := 2
  localSigmaCutoff : ℚ := 12/10
  localSigmaDiam : ℤ := 100
  localAvgMin : ℚ := -1
  localAvgMax : ℚ := 1
  localAvgDiam : ℤ := 100
  lowPass : ℤ := 30
  highPass : ℤ := 1000
  preFilt : Bool := false
  prelowPass : ℤ := 8
  prehighPass : ℤ := 1000
  version053 : Bool := false
  detectIce : Bool := true
  templateNorm : ℤ := 1
  doBandpass : Bool := true
  exclusive : Bool := false
  inputBadCoords : Bool := false
  inputDefects : Bool := false
  writeCC : Bool := false
  writeFilt : Bool := false
  writeBg : Bool := false
  writeBgSub : Bool := false
  writeSigma : Bool := false
  writeMsk : Bool := false
  numberOfMpi : ℕ := 1
  numberOfThreads : ℕ := 1
  gpuList : List ℕ := [0]
deriving Repr, DecidableEq

/-- Python `int()` applied to a float: truncation toward zero. -/
def pyInt (q : ℚ) : ℤ := if 0 ≤ q then ⌊q⌋ else -⌊-q⌋

/-- `ProtGautomatch._getDiameter` (protocol_gautomatch.py:598-610): an
explicit particle radius > 0 gives diameter `2 * particleSize` (the
truthiness test `self.particleSize and self.particleSize > 0` reduces to
the value being positive); otherwise with references present the diameter
is `int(0.75 * dim * pix)`; otherwise 250. -/
def _getDiameter (cfg : GautoConfig) : ℤ :=
  if 0 < cfg.particleSize then
    2 * cfg.particleSize
  else
    match cfg.inputReferences with
    | some refs => pyInt ((3/4 : ℚ) * (refs.xDim : ℚ) * refs.samplingRate)
    | none => 250

/-- Modelled from the spec: the spec words the reference-template case of
the diameter derivation as `round(0.75 x templateDimensionPixels x
templateSamplingRate)` (rounding to nearest), kept here only to compare
with the source's `_getDiameter`, which truncates via `int(...)`. -/
def specDiameter (cfg : GautoConfig) : ℤ :=
  if 0 < cfg.particleSize then
    2 * cfg.particleSize
  else
    match cfg.inputReferences with
    | some refs => round ((3/4 : ℚ) * (refs.xDim : ℚ) * refs.samplingRate)
    | none => 250

/-- `ProtGautomatch._getBoxSize` (protocol_gautomatch.py:558-567): the
explicit box size when positive (`self.boxSize and self.boxSize > 0`
reduces to positivity), else the references' X dimension when references
are present with a truthy (nonzero) X dimension, else 100. -/
def _getBoxSize (cfg : GautoConfig) : ℤ :=
  if 0 < cfg.boxSize then
    cfg.boxSize
  else
    match cfg.inputReferences with
    | some refs => if refs.xDim ≠ 0 then (refs.xDim : ℤ) else 100
    | none => 100

/-- One Gautomatch command-line argument, one constructor per flag emitted
by `getArgs` (protocol_gautomatch.py:494-556). Numeric payloads carry the
formatted value: `%0.2f` floats via `fmt2`, `%d` integers exactly. -/
inductive GArg where
  | apixM (v : ℚ)
  | angStep (v : ℤ)
  | diameter (v : ℤ)
  | lp (v : ℤ)
  | hp (v : ℤ)
  | gid
  | apixT (v : ℚ)
  | dontInvertT
  | ccCutoff (v : ℚ)
  | speed (v : ℤ)
  | boxsize (v : ℤ)
  | minDist (v : ℤ)
  | lsigmaCutoff (v : ℚ)
  | lsigmaD (v : ℤ)
  | laveMax (v : ℚ)
  | laveMin (v : ℚ)
  | laveD (v : ℤ)
  | doPreFilter
  | preLp (v : ℤ)
  | preHp (v : ℤ)
  | detectIce (v : ℤ)
  | tNormType (v : ℤ)
  | doBandpassArg (v : ℤ)
  | exclusivePicking
  | globalExcludedBox
  | writeCcmaxMic
  | writePrefMic
  | writeBgMic
  | writeBgfreeMic
  | writeLsigmaMic
  | writeMicMask
deriving Repr, DecidableEq

/-- Two-decimal fixed-point text formatting, the `%0.2f` conversion. -/
def fmt2 (q : ℚ) : ℚ := round (q * 100) / 100

/-- `ProtGautomatch.getArgs` (protocol_gautomatch.py:494-556): builds the
Gautomatch invocation arguments in source order; each `args += ...` line
becomes one appended element. It is a total function: no validation
happens here and no configuration makes it fail. -/
def getArgs (cfg : GautoConfig) (threshold : Bool := true)
    (mindist : Bool := true) : List GArg :=
  [GArg.apixM (fmt2 cfg.micSamplingRate),
   GArg.angStep cfg.angStep,
   GArg.diameter (_getDiameter cfg),
   GArg.lp cfg.lowPass,
   GArg.hp cfg.highPass,
   GArg.gid]
  ++ (match cfg.inputReferences with
      | some refs => [GArg.apixT (fmt2 refs.samplingRate)]
      | none => [])
  ++ (if !cfg.invertTemplatesContrast then [GArg.dontInvertT] else [])
  ++ (if threshold then [GArg.ccCutoff (fmt2 cfg.threshold)] else [])
  ++ (if !cfg.advanced then
        [GArg.speed cfg.speed, GArg.boxsize (_getBoxSize cfg)]
        ++ (if mindist then [GArg.minDist cfg.minDist] else [])
        ++ [GArg.lsigmaCutoff (fmt2 cfg.localSigmaCutoff),
            GArg.lsigmaD cfg.localSigmaDiam,
            GArg.laveMax (fmt2 cfg.localAvgMax),
            GArg.laveMin (fmt2 cfg.localAvgMin),
            GArg.laveD cfg.localAvgDiam]
      else [])
  ++ (if cfg.preFilt then
        [GArg.doPreFilter, GArg.preLp cfg.prelowPass,
         GArg.preHp cfg.prehighPass]
      else [])
  ++ (if !cfg.version053 then
        [GArg.detectIce (if cfg.detectIce then 1 else 0),
         GArg.tNormType cfg.templateNorm,
         GArg.doBandpassArg (if cfg.doBandpass then 1 else 0)]
      else [])
  ++ (if cfg.exclusive then
        (if cfg.inputBadCoords then [GArg.exclusivePicking] else [])
        ++ (if cfg.inputDefects then [GArg.globalExcludedBox] else [])
      else [])
  ++ (if cfg.writeCC then [GArg.writeCcmaxMic] else [])
  ++ (if cfg.writeFilt then [GArg.writePrefMic] else [])
  ++ (if cfg.writeBg then [GArg.writeBgMic] else [])
  ++ (if cfg.writeBgSub then [GArg.writeBgfreeMic] else [])
  ++ (if cfg.writeSigma then [GArg.writeLsigmaMic] else [])
  ++ (if cfg.writeMsk then [GArg.writeMicMask] else [])

/-- `ProtGautomatch._validate` (protocol_gautomatch.py:383-399): the error
messages collected before a run starts, in source order. The only bound
check is on the local-average cut-off range; the band-pass `lowPass` /
`highPass` values are never inspected. -/
def _validate (cfg : GautoConfig) : List String :=
  (if cfg.localAvgMin < cfg.localAvgMax then []
   else ["Wrong values of local average cut-off!"])
  ++ (if cfg.exclusive && !cfg.inputBadCoords && !cfg.inputDefects then
        ["You have to provide at least one set of coordinates ",
         "for exclusive picking!"]
      else [])
  ++ (if max cfg.numberOfMpi cfg.numberOfThreads < cfg.gpuList.length then
        ["Multiple GPUs can not be used by a single process. Make sure you specify more processors than GPUs. "]
      else [])

/-- A pwem `SetOfCoordinates` as the merger sees it: an optional box size
(unset until first assigned) and the appended coordinates. -/
structure CoordSet where
  boxSize : Option ℤ := none
  coords : List EmCoordinate := []
deriving Repr, DecidableEq

/-- `ProtGautomatch.readCoordsFromMics` (protocol_gautomatch.py:435-440):
assigns the box size from the run configuration when the set has none
(there is no consistency check when it is already set — a later merge with
a different configured box size appends anyway), then appends the parsed
accepted coordinates. The `readRejectedCoordsFromMics` call populates a
separate auxiliary rejected set and never touches `coordSet`; it is not
modelled here. -/
def readCoordsFromMics (cfg : GautoConfig) (fs : String → Option (List CoordRow))
    (micrographsDir : String) (micList : List Micrograph)
    (coordSet : CoordSet) : CoordSet × Option FormatError :=
  let cs :=
    if coordSet.boxSize = none then
      { coordSet with boxSize := some (_getBoxSize cfg) }
    else coordSet
  let res := readSetOfCoordinates fs micrographsDir micList cs.coords
  ({ cs with coords := res.1 }, res.2)

/-- A pwem `SetOfMicrographs`: a sampling rate and the member
micrographs. -/
structure MicSet where
  samplingRate : ℚ
  mics : List Micrograph
deriving Repr, DecidableEq

/-- `ProtGautomatch.getOutputName` (protocol_gautomatch.py:581-587):
micrograph base name, the suffix key, an `.mrc` extension, under the shared
micrographs dir. -/
def getOutputName (micrographsDir fn key : String) : String :=
  micrographsDir ++ "/" ++ removeBaseExt fn ++ key ++ ".mrc"

/-- `ProtGautomatch.createDebugOutput` (protocol_gautomatch.py:479-489):
builds a micrograph set pointing at the debug images for `suffix`; its
sampling rate is `float(pixSize * 4)` because the debug images are
downsampled by a factor of 4. -/
def createDebugOutput (micrographsDir : String) (micSet : MicSet)
    (suffix : String) : MicSet :=
  { samplingRate := micSet.samplingRate * 4
    mics := micSet.mics.map fun mic =>
      { mic with fileName := getOutputName micrographsDir mic.fileName suffix } }

/-- Outcome of one `Plugin.runGautomatch` invocation for a batch, as the
per-batch `try` block observes it: on success the files found in the batch
working directory afterwards; on failure (non-zero exit or any raised
exception) the files left behind plus the exception message. -/
inductive PickerOutcome where
  | ok (files : List String)
  | fail (files : List String) (msg : String)
deriving Repr, DecidableEq

/-- Filesystem-visible state threaded through the picking steps: files
already moved to the shared output (extra) directory, surviving batch
working directories with their contents, and the protocol error log. -/
structure RunState where
  extraFiles : List String := []
  tmpDirs : List (String × List String) := []
  errorLog : List String := []
deriving Repr, DecidableEq

/-- The debug-image glob patterns moved on the success path
(protocol_gautomatch.py:367-368). -/
def debugSuffixes : List String :=
  ["_ccmax.mrc", "_pref.mrc", "_bg.mrc", "_bgfree.mrc", "_lsigma.mrc",
   "_mask.mrc"]

/-- The log line written by the `except` handler
(protocol_gautomatch.py:376-377). -/
def gautomatchErrorMsg (micFnList : List String) (msg : String) : String :=
  "ERROR: Gautomatch has failed for " ++ String.intercalate ", " micFnList
    ++ ". " ++ msg

/-- `ProtGautomatch._pickMicrographList` (protocol_gautomatch.py:333-377),
one batch. The external invocation and its filesystem effects are
abstracted into a `PickerOutcome`. On success, the `*.star` files and then
each debug-suffix glob are moved from the batch directory to the shared
output directory, and `pwutils.cleanPath` deletes the batch directory (its
creation and deletion both happen inside this step, so `tmpDirs` is
unchanged). On failure, the `except Exception` handler logs the error with
the batch micrograph filenames and returns normally — nothing propagates —
and the batch directory with its contents is left in place. -/
def pickMicrographList (micFnList : List String) (micPath : String)
    (outcome : PickerOutcome) (st : RunState) : RunState :=
  match outcome with
  | PickerOutcome.ok files =>
    let starFiles := files.filter (strEndsWith · ".star")
    let debugFiles :=
      (debugSuffixes.map fun p => files.filter (strEndsWith · p)).flatten
    { st with extraFiles := st.extraFiles ++ starFiles ++ debugFiles }
  | PickerOutcome.fail files msg =>
    { st with
      tmpDirs := st.tmpDirs ++ [(micPath, files)]
      errorLog := st.errorLog ++ [gautomatchErrorMsg micFnList msg] }

/-- One batch of the run: the micrograph filenames handed to the picker,
the unique batch working directory, and the invocation outcome. -/
structure Batch where
  micFnList : List String
  micPath : String
  outcome : PickerOutcome
deriving Repr, DecidableEq

/-- The run over its batches: every batch goes through
`_pickMicrographList`, unconditionally — a failed batch cannot stop the
fold because the per-batch handler swallows the exception. -/
def runBatches (batches : List Batch) (st : RunState) : RunState :=
  batches.foldl (fun s b => pickMicrographList b.micFnList b.micPath b.outcome s) st

/-! Concrete inputs reused by the witnesses and counterexamples below. -/

/-- A micrograph used in concrete instantiations. -/
def micA : Micrograph := { objId := 1, micName := "micA", fileName := "micA.mrc" }

/-- A second micrograph used in concrete instantiations. -/
def micB : Micrograph := { objId := 2, micName := "micB", fileName := "micB.mrc" }

/-- A minimal configuration with every parameter at its form default. -/
def cfgDefault : GautoConfig := { micSamplingRate := 1 }

/-! ### Claim C10 -/

/-- Claim C10: every debug-output micrograph set, for any debug suffix, is
created with a sampling rate exactly 4 times the sampling rate of the input
micrograph set. -/
theorem c10_debug_sampling_rate (micrographsDir : String) (micSet : MicSet)
    (suffix : String) :
    (createDebugOutput micrographsDir micSet suffix).samplingRate =
      4 * micSet.samplingRate := by
  simp [createDebugOutput]
  ring

/-! ### Claim C8 -/

/-- Claim C8: parsing a path that does not exist on disk returns the
coordinate set unchanged (zero appended coordinates) and reports no
error. -/
theorem c8_missing_file_tolerance (mic : Micrograph)
    (coordsSet : List EmCoordinate) :
    readCoordinates mic none coordsSet = (coordsSet, none) := rfl

/-! ### Claim C9 -/

/-- Claim C9: the effective box size is the configured box size when
positive; otherwise the X dimension of the reference templates when
references are present with nonzero X dimension; otherwise 100 pixels —
and that value feeds both the `--boxsize` argument (emitted whenever the
advanced-guess toggle is off) and the box size assigned to a fresh output
coordinate set. -/
theorem c9_box_size_fallback (cfg : GautoConfig) :
    (0 < cfg.boxSize → _getBoxSize cfg = cfg.boxSize) ∧
    (cfg.boxSize ≤ 0 → ∀ r, cfg.inputReferences = some r → r.xDim ≠ 0 →
      _getBoxSize cfg = (r.xDim : ℤ)) ∧
    (cfg.boxSize ≤ 0 → ∀ r, cfg.inputReferences = some r → r.xDim = 0 →
      _getBoxSize cfg = 100) ∧
    (cfg.boxSize ≤ 0 → cfg.inputReferences = none → _getBoxSize cfg = 100) ∧
    (∀ t m, cfg.advanced = false →
      GArg.boxsize (_getBoxSize cfg) ∈ getArgs cfg t m) ∧
    (∀ fs dir micList s, s.boxSize = none →
      (readCoordsFromMics cfg fs dir micList s).1.boxSize =
        some (_getBoxSize cfg)) := by
  refine ⟨?_, ?_, ?_, ?_, ?_, ?_⟩
  · intro h
    simp [_getBoxSize, h]
  · intro hle r hr hdim
    have hnot : ¬ 0 < cfg.boxSize := by omega
    simp [_getBoxSize, hnot, hr, hdim]
  · intro hle r hr hdim
    have hnot : ¬ 0 < cfg.boxSize := by omega
    simp [_getBoxSize, hnot, hr, hdim]
  · intro hle hr
    have hnot : ¬ 0 < cfg.boxSize := by omega
    simp [_getBoxSize, hnot, hr]
  · intro t m hadv
    simp [getArgs, hadv]
  · intro fs dir micList s hs
    simp [readCoordsFromMics, hs]

/-- Witness for C9 at a concrete configuration: explicit box size 64 with
the advanced toggle off. -/
theorem c9_box_size_fallback_witness :
    _getBoxSize { cfgDefault with boxSize := 64, advanced := false } = 64 ∧
    GArg.boxsize
        (_getBoxSize { cfgDefault with boxSize := 64, advanced := false }) ∈
      getArgs { cfgDefault with boxSize := 64, advanced := false } true true :=
  ⟨(c9_box_size_fallback _).1 (by decide),
   (c9_box_size_fallback _).2.2.2.2.1 true true rfl⟩

/-! ### Claim C6 -/

/-- Claim C6: with exclusive picking enabled and neither a bad-coordinate
input nor a defect input set, validation reports the
exclusive-picking error; with at least one of the two inputs set, it
reports no such error. -/
theorem c6_exclusive_picking_validation (cfg : GautoConfig)
    (hex : cfg.exclusive = true) :
    ((cfg.inputBadCoords = false → cfg.inputDefects = false →
      "You have to provide at least one set of coordinates " ∈ _validate cfg ∧
      "for exclusive picking!" ∈ _validate cfg) ∧
     (cfg.inputBadCoords = true ∨ cfg.inputDefects = true →
      "You have to provide at least one set of coordinates " ∉ _validate cfg ∧
      "for exclusive picking!" ∉ _validate cfg)) := by
  constructor
  · intro hb hd
    have hcond : (cfg.exclusive && !cfg.inputBadCoords && !cfg.inputDefects)
        = true := by simp [hex, hb, hd]
    constructor <;> (simp only [_validate, hcond]; split_ifs <;> simp_all)
  · intro hor
    have hcond : (cfg.exclusive && !cfg.inputBadCoords && !cfg.inputDefects)
        = false := by
      rcases hor with h | h <;> simp [h]
    constructor <;> (simp only [_validate, hcond]; split_ifs <;> simp_all)

/-- Witness for C6: the error is reported when exclusive picking has no
input set, and not reported once the bad-coordinates input is present. -/
theorem c6_exclusive_picking_validation_witness :
    ("You have to provide at least one set of coordinates " ∈
      _validate { cfgDefault with exclusive := true }) ∧
    ("You have to provide at least one set of coordinates " ∉
      _validate { cfgDefault with exclusive := true, inputBadCoords := true }) :=
  ⟨((c6_exclusive_picking_validation _ rfl).1 rfl rfl).1,
   ((c6_exclusive_picking_validation _ rfl).2 (Or.inl rfl)).1⟩

/-! ### Claim C5 -/

/-- A configuration whose band-pass bounds violate low < high while every
other parameter keeps its form default. -/
def cfgBandpassBad : GautoConfig :=
  { cfgDefault with lowPass := 1000, highPass := 30 }

/-- Claim C5 counterexample: a configuration with low-pass bound 1000 and
high-pass bound 30 (low not strictly below high) passes validation with no
error at all, and the argument builder still succeeds, emitting `--lp 1000`
and `--hp 30`; no `ConfigValidationError`-style failure exists on this
path. -/
theorem c5_bandpass_counterexample :
    ¬ cfgBandpassBad.lowPass < cfgBandpassBad.highPass ∧
    _validate cfgBandpassBad = [] ∧
    GArg.lp 1000 ∈ getArgs cfgBandpassBad true true ∧
    GArg.hp 30 ∈ getArgs cfgBandpassBad true true := by
  refine ⟨by decide, by decide, ?_, ?_⟩ <;> simp [getArgs, cfgBandpassBad, cfgDefault]

/-- Claim C5 as amended: validation never inspects the band-pass bounds
(`_validate` is invariant under changing them, and the builder emits
`--lp`/`--hp` unconditionally without failing); the strict `min < max`
bound check that validation does perform is the one on the local-average
cut-off range, reported exactly when `localAvgMin < localAvgMax` fails. -/
theorem c5_validation_amended (cfg : GautoConfig) :
    ("Wrong values of local average cut-off!" ∈ _validate cfg ↔
      ¬ cfg.localAvgMin < cfg.localAvgMax) ∧
    (∀ lp hp, _validate { cfg with lowPass := lp, highPass := hp } =
      _validate cfg) ∧
    (∀ t m, GArg.lp cfg.lowPass ∈ getArgs cfg t m ∧
      GArg.hp cfg.highPass ∈ getArgs cfg t m) := by
  refine ⟨?_, fun lp hp => rfl, fun t m => ⟨by simp [getArgs], by simp [getArgs]⟩⟩
  by_cases h : cfg.localAvgMin < cfg.localAvgMax
  · simp only [_validate, if_pos h, h, not_true, iff_false, List.nil_append]
    split_ifs <;> simp_all
  · simp [_validate, if_neg h, h]

/-! ### Claim C3 -/

/-- No radius, templates with X dimension 2 px at 1.3 A/px:
`0.75 * 2 * 1.3 = 1.95`, which truncation and rounding separate. -/
def cfgDiamFrac : GautoConfig :=
  { cfgDefault with inputReferences := some { samplingRate := 13/10, xDim := 2 } }

/-- Radius 250 A configured explicitly. -/
def cfgDiam500 : GautoConfig := { cfgDefault with particleSize := 250 }

/-- No radius, templates with X dimension 100 px at 4.4 A/px. -/
def cfgDiam330 : GautoConfig :=
  { cfgDefault with inputReferences := some { samplingRate := 22/5, xDim := 100 } }

/-- Claim C3 counterexample: with no radius and templates of X dimension
2 px at 1.3 A/px, the code computes `int(0.75 * 2 * 1.3) = int(1.95) = 1`,
while the round form stated by the claim gives `round(1.95) = 2`. -/
theorem c3_diameter_round_counterexample :
    _getDiameter cfgDiamFrac = 1 ∧ specDiameter cfgDiamFrac = 2 ∧
    _getDiameter cfgDiamFrac ≠ specDiameter cfgDiamFrac := by
  have h1 : _getDiameter cfgDiamFrac = 1 := by
    have : ((3 : ℚ)/4 * ((2 : ℕ) : ℚ) * (13/10)) = 39/20 := by norm_num
    simp only [_getDiameter, cfgDiamFrac, cfgDefault, pyInt, this]
    norm_num
  have h2 : specDiameter cfgDiamFrac = 2 := by
    have : ((3 : ℚ)/4 * ((2 : ℕ) : ℚ) * (13/10)) = 39/20 := by norm_num
    simp only [specDiameter, cfgDiamFrac, cfgDefault, this]
    norm_num [round_eq]
  exact ⟨h1, h2, by rw [h1, h2]; decide⟩

/-- Claim C3 as amended: an explicit particle radius > 0 gives diameter
2 x radius; otherwise with reference templates present the diameter is
0.75 x template X dimension x template sampling rate truncated toward zero
(Python `int(...)`, not rounded to nearest); otherwise 250. The
instances of the claim survive: radius 250 gives 500, templates of 100 px
at 4.4 A/px give 330 (exact, so truncation and rounding agree there), and
neither gives 250; the value is emitted as the `--diameter` argument. -/
theorem c3_diameter_derivation_amended :
    (∀ cfg : GautoConfig,
      (0 < cfg.particleSize → _getDiameter cfg = 2 * cfg.particleSize) ∧
      (cfg.particleSize ≤ 0 → ∀ r, cfg.inputReferences = some r →
        _getDiameter cfg = pyInt ((3/4 : ℚ) * (r.xDim : ℚ) * r.samplingRate)) ∧
      (cfg.particleSize ≤ 0 → cfg.inputReferences = none →
        _getDiameter cfg = 250) ∧
      (∀ t m, GArg.diameter (_getDiameter cfg) ∈ getArgs cfg t m)) ∧
    _getDiameter cfgDiam500 = 500 ∧
    _getDiameter cfgDiam330 = 330 ∧
    _getDiameter cfgDefault = 250 := by
  refine ⟨fun cfg => ⟨?_, ?_, ?_, ?_⟩, ?_, ?_, ?_⟩
  · intro h
    simp [_getDiameter, h]
  · intro hle r hr
    have hnot : ¬ 0 < cfg.particleSize := by omega
    simp [_getDiameter, hnot, hr]
  · intro hle hr
    have hnot : ¬ 0 < cfg.particleSize := by omega
    simp [_getDiameter, hnot, hr]
  · intro t m
    simp [getArgs]
  · simp [_getDiameter, cfgDiam500, cfgDefault]
  · have : ((3 : ℚ)/4 * ((100 : ℕ) : ℚ) * (22/5)) = 330 := by norm_num
    simp only [_getDiameter, cfgDiam330, cfgDefault, pyInt, this]
    norm_num
  · simp [_getDiameter, cfgDefault]

/-- Witness for C3 as amended, at the explicit-radius configuration. -/
theorem c3_diameter_derivation_amended_witness :
    _getDiameter cfgDiam500 = 2 * cfgDiam500.particleSize ∧
    _getDiameter cfgDefault = 250 :=
  ⟨(c3_diameter_derivation_amended.1 cfgDiam500).1 (by decide),
   (c3_diameter_derivation_amended.1 cfgDefault).2.2.1 (by decide) rfl⟩

/-! ### Claim C4 -/

/-- Parsing only ever appends to the coordinate set it is given. -/
lemma readCoordinatesRows_append (mic : Micrograph) (rows : List CoordRow) :
    ∀ acc, ∃ t, (readCoordinatesRows mic rows acc).1 = acc ++ t := by
  induction rows with
  | nil => exact fun acc => ⟨[], by simp [readCoordinatesRows]⟩
  | cons row rest ih =>
    intro acc
    simp only [readCoordinatesRows]
    cases h : rowToCoordinate row with
    | some coord =>
      obtain ⟨t, ht⟩ := ih (acc ++ [setMicrograph mic coord])
      exact ⟨setMicrograph mic coord :: t, by simp [ht]⟩
    | none => exact ⟨[], by simp⟩

/-- `readCoordinates` only ever appends to the coordinate set. -/
lemma readCoordinates_append (mic : Micrograph)
    (fileRows : Option (List CoordRow)) (acc : List EmCoordinate) :
    ∃ t, (readCoordinates mic fileRows acc).1 = acc ++ t := by
  cases fileRows with
  | none => exact ⟨[], by simp [readCoordinates]⟩
  | some rows => exact readCoordinatesRows_append mic rows acc

/-- `readSetOfCoordinates` only ever appends to the coordinate set. -/
lemma readSetOfCoordinates_append (fs : String → Option (List CoordRow))
    (workDir : String) (micSet : List Micrograph) (suffix : String) :
    ∀ acc, ∃ t,
      (readSetOfCoordinates fs workDir micSet acc suffix).1 = acc ++ t := by
  induction micSet with
  | nil => exact fun acc => ⟨[], by simp [readSetOfCoordinates]⟩
  | cons mic rest ih =>
    intro acc
    simp only [readSetOfCoordinates]
    obtain ⟨t1, ht1⟩ := readCoordinates_append mic
      (fs (workDir ++ "/" ++ removeBaseExt mic.fileName ++ suffix)) acc
    cases h : readCoordinates mic
        (fs (workDir ++ "/" ++ removeBaseExt mic.fileName ++ suffix)) acc with
    | mk cs err =>
      have hcs : cs = acc ++ t1 := by rw [h] at ht1; exact ht1
      cases err with
      | none =>
        obtain ⟨t2, ht2⟩ := ih cs
        subst hcs
        exact ⟨t1 ++ t2, by simp [ht2]⟩
      | some e => exact ⟨t1, by simpa using hcs⟩

/-- An empty coordinate set, box size unset. -/
def emptyCoordSet : CoordSet := {}

/-- A row holding only the two mandatory coordinate columns. -/
def rowXY : CoordRow := { xLabel := some 5, yLabel := some 6 }

/-- A filesystem on which every expected coordinate file exists and holds
one well-formed row. -/
def fsOneRow : String → Option (List CoordRow) := fun _ => some [rowXY]

/-- First merge: configured box size 100. -/
def mergedOnce : CoordSet × Option FormatError :=
  readCoordsFromMics { cfgDefault with boxSize := 100 } fsOneRow "wd" [micA]
    emptyCoordSet

/-- Second merge into the same set with configured box size 200. -/
def mergedTwice : CoordSet × Option FormatError :=
  readCoordsFromMics { cfgDefault with boxSize := 200 } fsOneRow "wd" [micB]
    mergedOnce.1

/-- Claim C4 counterexample: merging a second batch whose run
configuration carries box size 200 into a set whose box size is already
100 does not fail in any way — no error value exists on this path — and
the records are appended anyway, the box size silently staying 100. -/
theorem c4_box_size_merge_counterexample :
    mergedOnce.1.boxSize = some 100 ∧
    mergedTwice.1.boxSize = some 100 ∧
    mergedTwice.2 = none ∧
    mergedTwice.1.coords.length = 2 := by decide

/-- Claim C4 as amended: when the target set has no box size yet it is
assigned from the run configuration before the records of the merge are
appended; a merge into a set whose box size is already set leaves that box
size unchanged and appends the parsed records regardless of the configured
box size — no box-size consistency check or error exists. -/
theorem c4_box_size_merge_amended (cfg : GautoConfig)
    (fs : String → Option (List CoordRow)) (dir : String)
    (micList : List Micrograph) (s : CoordSet) :
    (s.boxSize = none →
      (readCoordsFromMics cfg fs dir micList s).1.boxSize =
        some (_getBoxSize cfg)) ∧
    (∀ b, s.boxSize = some b →
      (readCoordsFromMics cfg fs dir micList s).1.boxSize = some b) ∧
    (∃ t, (readCoordsFromMics cfg fs dir micList s).1.coords =
      s.coords ++ t) := by
  refine ⟨fun h => by simp [readCoordsFromMics, h], fun b h => ?_, ?_⟩
  · simp [readCoordsFromMics, h]
  · simp only [readCoordsFromMics]
    split_ifs with h <;>
      exact readSetOfCoordinates_append fs dir micList "_automatch.star" _

/-- Witness for C4 as amended at the concrete two-merge scenario of the
counterexample. -/
theorem c4_box_size_merge_amended_witness :
    (readCoordsFromMics { cfgDefault with boxSize := 100 } fsOneRow "wd"
        [micA] emptyCoordSet).1.boxSize =
      some (_getBoxSize { cfgDefault with boxSize := 100 }) ∧
    (readCoordsFromMics { cfgDefault with boxSize := 200 } fsOneRow "wd"
        [micB] ⟨some 100, []⟩).1.boxSize = some 100 :=
  ⟨(c4_box_size_merge_amended _ fsOneRow "wd" [micA] emptyCoordSet).1 rfl,
   (c4_box_size_merge_amended _ fsOneRow "wd" [micB] ⟨some 100, []⟩).2.1
     100 rfl⟩

/-! ### Claim C1 -/

/-- The coordinate that parsing yields for a record previously written by
`CoordStarWriter.writeRow`: floats as formatted to six decimals, the class
number incremented by `rowToCoordinate`, the micrograph linkage from
`setMicrograph`. -/
def parsedOf (mic : Micrograph) (r : CoordRecord) : EmCoordinate :=
  { enabled := true
    x := fmt6 r.x
    y := fmt6 r.y
    psiAttr := some (fmt6 r.psi)
    clsAttr := some (r.classNumber + 1)
    fomAttr := some (fmt6 r.figureOfMerit)
    micId := some mic.objId
    micNameAttr := some (Sum.inr mic.micName) }

/-- A written row always parses, to the written values with the class
number incremented. -/
lemma rowToCoordinate_writeRow (x y psi : ℚ) (cls : ℤ) (fom : ℚ) :
    rowToCoordinate (writeRow x y psi cls fom) =
      some { enabled := true, x := fmt6 x, y := fmt6 y
             psiAttr := some (fmt6 psi), clsAttr := some (cls + 1)
             fomAttr := some (fmt6 fom), micId := none
             micNameAttr := none } := rfl

/-- Parsing the rows produced by writing a record sequence appends exactly
one `parsedOf` coordinate per record and reports no error. -/
lemma readCoordinatesRows_written (mic : Micrograph) (R : List CoordRecord) :
    ∀ acc, readCoordinatesRows mic (writeCoordStar R) acc =
      (acc ++ R.map (parsedOf mic), none) := by
  induction R with
  | nil => intro acc; simp [writeCoordStar, readCoordinatesRows]
  | cons r rest ih =>
    intro acc
    simp only [writeCoordStar, List.map_cons, readCoordinatesRows,
      rowToCoordinate_writeRow]
    have hset : setMicrograph mic
        { enabled := true, x := fmt6 r.x, y := fmt6 r.y
          psiAttr := some (fmt6 r.psi), clsAttr := some (r.classNumber + 1)
          fomAttr := some (fmt6 r.figureOfMerit), micId := none
          micNameAttr := none } = parsedOf mic r := rfl
    rw [hset]
    have := ih (acc ++ [parsedOf mic r])
    simp only [writeCoordStar] at this
    rw [this]
    simp

/-- Six-decimal formatting moves a value by at most half an ulp of the
last written digit, hence by well under 10⁻⁶. -/
lemma abs_fmt6_sub_le (q : ℚ) : |fmt6 q - q| ≤ 1/1000000 := by
  have h := abs_sub_round (q * 1000000 : ℚ)
  rw [abs_sub_comm] at h
  have heq : fmt6 q - q =
      ((round (q * 1000000) : ℚ) - q * 1000000) / 1000000 := by
    unfold fmt6; ring
  rw [heq, abs_div, abs_of_pos (by norm_num : (0:ℚ) < 1000000)]
  calc |(round (q * 1000000) : ℚ) - q * 1000000| / 1000000
      ≤ (1/2) / 1000000 := by gcongr
    _ ≤ 1/1000000 := by norm_num

/-- Per-field closeness of a parsed coordinate to the record that was
written: each float field within 10⁻⁶ absolute error, the class number off
by exactly the +1 applied at parse time. -/
def roundTripClose (c : EmCoordinate) (r : CoordRecord) : Prop :=
  |c.x - r.x| ≤ 1/1000000 ∧
  |c.y - r.y| ≤ 1/1000000 ∧
  (∃ p, c.psiAttr = some p ∧ |p - r.psi| ≤ 1/1000000) ∧
  (∃ f, c.fomAttr = some f ∧ |f - r.figureOfMerit| ≤ 1/1000000) ∧
  c.clsAttr = some (r.classNumber + 1)

/-- A record written and parsed back. -/
def recBack : CoordRecord :=
  { x := 10, y := 20, psi := 0, classNumber := 0, figureOfMerit := 0 }

/-- Claim C1 counterexample: the record (10, 20, 0, class 0, 0), written
with `CoordStarWriter.writeRow` and parsed back, comes back with class
number 1 — `rowToCoordinate` increments `_rlnClassNumber` because
Gautomatch counts classes from 0 while relion counts from 1 — so the
integer field is not preserved exactly. -/
theorem c1_roundtrip_counterexample :
    ((readCoordinates micA (some (writeCoordStar [recBack])) []).1.map
      (fun c => c.clsAttr)) = [some 1] ∧
    recBack.classNumber = 0 ∧
    [some (1 : ℤ)] ≠ [some recBack.classNumber] := by decide

/-- Claim C1 as amended: writing any record sequence R with the coordinate
writer and parsing the file back yields, with no error, one record per
element of R in order, whose float fields (x, y, psi, figureOfMerit) are
each within 10⁻⁶ absolute error of the originals and whose classNumber is
exactly the original incremented by one. -/
theorem c1_roundtrip_amended (mic : Micrograph) (R : List CoordRecord) :
    (readCoordinates mic (some (writeCoordStar R)) []).2 = none ∧
    List.Forall₂ roundTripClose
      (readCoordinates mic (some (writeCoordStar R)) []).1 R := by
  have h := readCoordinatesRows_written mic R []
  refine ⟨by simp [readCoordinates, h], ?_⟩
  simp only [readCoordinates, h, List.nil_append]
  clear h
  induction R with
  | nil => simp
  | cons r rest ih =>
    refine List.Forall₂.cons ?_ ih
    refine ⟨abs_fmt6_sub_le r.x, abs_fmt6_sub_le r.y,
      ⟨fmt6 r.psi, rfl, abs_fmt6_sub_le r.psi⟩,
      ⟨fmt6 r.figureOfMerit, rfl, abs_fmt6_sub_le r.figureOfMerit⟩, rfl⟩

/-! ### Claim C7 -/

/-- A row missing the mandatory y column. -/
def rowMissingY : CoordRow := { xLabel := some 1 }

/-- Claim C7: a coordinate file that exists but contains a row without the
required x/y columns makes parsing fail with the format error — a row
fails `rowToCoordinate` exactly when x or y is missing, and
`readCoordinates` on a present file containing such a row always reports
the error instead of silently returning a partial or empty result. -/
theorem c7_malformed_file_fails :
    (∀ row : CoordRow, rowToCoordinate row = none ↔
      (row.xLabel = none ∨ row.yLabel = none)) ∧
    (∀ (mic : Micrograph) (rows : List CoordRow)
      (coordsSet : List EmCoordinate),
      (∃ row ∈ rows, rowToCoordinate row = none) →
      (readCoordinates mic (some rows) coordsSet).2 =
        some FormatError.missingCoordinateColumns) := by
  constructor
  · intro row
    cases hx : row.xLabel <;> cases hy : row.yLabel <;>
      simp [rowToCoordinate, hx, hy]
  · intro mic rows
    induction rows with
    | nil => intro coordsSet h; simp at h
    | cons row rest ih =>
      intro coordsSet h
      simp only [readCoordinates, readCoordinatesRows]
      cases hrow : rowToCoordinate row with
      | some coord =>
        rcases h with ⟨bad, hmem, hbad⟩
        rcases List.mem_cons.mp hmem with heq | hmem2
        · subst heq; rw [hbad] at hrow; cases hrow
        · have := ih (coordsSet ++ [setMicrograph mic coord]) ⟨bad, hmem2, hbad⟩
          simpa [readCoordinates] using this
      | none => rfl

/-- Witness for C7: a present one-row file whose row lacks the y column. -/
theorem c7_malformed_file_fails_witness :
    (readCoordinates micA (some [rowMissingY]) []).2 =
      some FormatError.missingCoordinateColumns :=
  c7_malformed_file_fails.2 micA [rowMissingY] []
    ⟨rowMissingY, by decide, by decide⟩

/-! ### Claim C2 -/

/-- A picking step never removes files already in the shared output
directory. -/
lemma pick_extra_sub (a : List String) (p : String) (o : PickerOutcome)
    (st : RunState) :
    st.extraFiles ⊆ (pickMicrographList a p o st).extraFiles := by
  cases o <;> simp [pickMicrographList]

/-- A picking step never deletes a surviving batch directory of an earlier
batch. -/
lemma pick_tmp_sub (a : List String) (p : String) (o : PickerOutcome)
    (st : RunState) :
    st.tmpDirs ⊆ (pickMicrographList a p o st).tmpDirs := by
  cases o <;> simp [pickMicrographList]

/-- A picking step never erases logged errors. -/
lemma pick_log_sub (a : List String) (p : String) (o : PickerOutcome)
    (st : RunState) :
    st.errorLog ⊆ (pickMicrographList a p o st).errorLog := by
  cases o <;> simp [pickMicrographList]

/-- Output files survive the whole remaining run. -/
lemma runBatches_extra_sub (bs : List Batch) :
    ∀ st : RunState, st.extraFiles ⊆ (runBatches bs st).extraFiles := by
  induction bs with
  | nil => exact fun st => List.Subset.refl _
  | cons b rest ih =>
    exact fun st => (pick_extra_sub b.micFnList b.micPath b.outcome st).trans
      (ih _)

/-- Surviving batch directories survive the whole remaining run. -/
lemma runBatches_tmp_sub (bs : List Batch) :
    ∀ st : RunState, st.tmpDirs ⊆ (runBatches bs st).tmpDirs := by
  induction bs with
  | nil => exact fun st => List.Subset.refl _
  | cons b rest ih =>
    exact fun st => (pick_tmp_sub b.micFnList b.micPath b.outcome st).trans
      (ih _)

/-- Logged errors survive the whole remaining run. -/
lemma runBatches_log_sub (bs : List Batch) :
    ∀ st : RunState, st.errorLog ⊆ (runBatches bs st).errorLog := by
  induction bs with
  | nil => exact fun st => List.Subset.refl _
  | cons b rest ih =>
    exact fun st => (pick_log_sub b.micFnList b.micPath b.outcome st).trans
      (ih _)

/-- Processing a run splits around any designated batch: everything before
it runs, the batch itself runs, and everything after it still runs. -/
lemma runBatches_split (pre post : List Batch) (b : Batch) (st : RunState) :
    runBatches (pre ++ b :: post) st =
      runBatches post
        (pickMicrographList b.micFnList b.micPath b.outcome
          (runBatches pre st)) := by
  simp [runBatches, List.foldl_append]

/-- Every star file produced by a successful batch of the run ends up in
the shared output directory, whatever the other batches do. -/
lemma star_harvested (bs : List Batch) :
    ∀ st : RunState, ∀ b ∈ bs, ∀ fs, b.outcome = PickerOutcome.ok fs →
      ∀ f ∈ fs, strEndsWith f ".star" = true →
        f ∈ (runBatches bs st).extraFiles := by
  induction bs with
  | nil => intro st b hb; simp at hb
  | cons b0 rest ih =>
    intro st b hb fs hok f hf hstar
    rcases List.mem_cons.mp hb with heq | hmem
    · subst heq
      have hmem0 : f ∈ (pickMicrographList b.micFnList b.micPath b.outcome
          st).extraFiles := by
        rw [hok]
        simp only [pickMicrographList]
        exact List.mem_append_left _
          (List.mem_append_right _ (List.mem_filter.mpr ⟨hf, hstar⟩))
      exact runBatches_extra_sub rest _ hmem0
    · exact ih _ b hmem fs hok f hf hstar

/-- Claim C2: per-batch partial-failure policy of `_pickMicrographList`.
On the success path the star files and debug-image files produced by the
picker are moved to the shared output directory and the batch working
directory is deleted (no surviving directory, no logged error). When the
picker invocation for a batch fails, the failure is caught and logged with
the batch micrograph filenames, the batch working directory survives with
its contents, the run continues with the remaining batches, and every
successful batch of the rest of the run still gets its star files
harvested into the shared output directory. -/
theorem c2_partial_failure_policy :
    (∀ (micFnList : List String) (micPath : String) (files : List String)
      (st : RunState),
      (pickMicrographList micFnList micPath (PickerOutcome.ok files)
          st).extraFiles =
        st.extraFiles ++ files.filter (strEndsWith · ".star") ++
          (debugSuffixes.map fun p => files.filter (strEndsWith · p)).flatten ∧
      (pickMicrographList micFnList micPath (PickerOutcome.ok files)
          st).tmpDirs = st.tmpDirs ∧
      (pickMicrographList micFnList micPath (PickerOutcome.ok files)
          st).errorLog = st.errorLog) ∧
    (∀ (pre post : List Batch) (micFnList : List String) (micPath : String)
      (files : List String) (msg : String) (st : RunState),
      runBatches (pre ++ ⟨micFnList, micPath, PickerOutcome.fail files msg⟩
          :: post) st =
        runBatches post
          (pickMicrographList micFnList micPath
            (PickerOutcome.fail files msg) (runBatches pre st)) ∧
      (micPath, files) ∈
        (runBatches (pre ++ ⟨micFnList, micPath,
          PickerOutcome.fail files msg⟩ :: post) st).tmpDirs ∧
      gautomatchErrorMsg micFnList msg ∈
        (runBatches (pre ++ ⟨micFnList, micPath,
          PickerOutcome.fail files msg⟩ :: post) st).errorLog ∧
      (∀ b ∈ post, ∀ fs, b.outcome = PickerOutcome.ok fs →
        ∀ f ∈ fs, strEndsWith f ".star" = true →
          f ∈ (runBatches (pre ++ ⟨micFnList, micPath,
            PickerOutcome.fail files msg⟩ :: post) st).extraFiles)) := by
  constructor
  · intro micFnList micPath files st
    exact ⟨rfl, rfl, rfl⟩
  · intro pre post micFnList micPath files msg st
    set bad : Batch := ⟨micFnList, micPath, PickerOutcome.fail files msg⟩
    have hsplit := runBatches_split pre post bad st
    refine ⟨hsplit, ?_, ?_, ?_⟩
    · rw [hsplit]
      apply runBatches_tmp_sub
      simp [pickMicrographList]
    · rw [hsplit]
      apply runBatches_log_sub
      simp [pickMicrographList]
    · intro b hb fs hok f hf hstar
      rw [hsplit]
      exact star_harvested post _ b hb fs hok f hf hstar

/-- Concrete three-batch run for the C2 witness: batch 1 succeeds, batch 2
fails, batch 3 succeeds. -/
def batch1 : Batch :=
  { micFnList := ["m1.mrc"], micPath := "tmp/mic_000001"
    outcome := PickerOutcome.ok ["m1_automatch.star", "m1_rejected.star"] }

/-- The failing middle batch of the C2 witness run. -/
def batch2 : Batch :=
  { micFnList := ["m2.mrc"], micPath := "tmp/mic_000002"
    outcome := PickerOutcome.fail ["m2.mrc"] "non-zero exit" }

/-- The final, succeeding batch of the C2 witness run. -/
def batch3 : Batch :=
  { micFnList := ["m3.mrc"], micPath := "tmp/mic_000003"
    outcome := PickerOutcome.ok ["m3_automatch.star"] }

/-- Witness for C2 at the concrete three-batch run: the failed batch
directory survives with its contents, the failure is in the log, and the
star file of the batch after the failure is still harvested. -/
theorem c2_partial_failure_policy_witness :
    ("tmp/mic_000002", ["m2.mrc"]) ∈
      (runBatches [batch1, batch2, batch3] {}).tmpDirs ∧
    gautomatchErrorMsg ["m2.mrc"] "non-zero exit" ∈
      (runBatches [batch1, batch2, batch3] {}).errorLog ∧
    "m3_automatch.star" ∈
      (runBatches [batch1, batch2, batch3] {}).extraFiles := by
  have h := c2_partial_failure_policy.2 [batch1] [batch3] ["m2.mrc"]
    "tmp/mic_000002" ["m2.mrc"] "non-zero exit" {}
  exact ⟨h.2.1, h.2.2.1,
    h.2.2.2 batch3 (by decide) ["m3_automatch.star"] rfl
      "m3_automatch.star" (by decide) (by decide)⟩

end Gautomatch
